import Mathlib

/-!
Verification of the client controller in src/frontend/script.js.

The script wires five pieces together: a status probe run at page load, a
login form handler, a 2FA (challenge code) form handler, a contact-list
fetch handler, a bulk-DM form handler, and an EventSource consumer for the
backend log stream. Below, each handler is embedded as a pure function
from the outcome of its fetch (an `Except JsError` value: `Except.error`
models a rejected promise, i.e. a network or parse failure at the awaited
call) and the current page state to the resulting page state. A handler
written without try/catch in the source is embedded so that an error
outcome of the awaited fetch propagates as an `Except.error` result: an
unhandled rejection escaping the handler to the host environment.
-/

/-- A JavaScript runtime failure: a rejected network request, or a
TypeError raised by a property access on `undefined`. -/
inductive JsError where
  | network
  | typeError (msg : String)
deriving DecidableEq, Repr

/-- The mutable page state touched by script.js: visibility of the three
sections (`hidden` class present or not), the status line (text and
className set by `updateStatus`), the innerHTML of `user-list-output`,
and the value of the `recipient-pks` textarea. -/
structure Page where
  loginFormHidden : Bool
  twoFaHidden : Bool
  botActionsHidden : Bool
  statusText : String
  statusClass : String
  userList : String
  recipientPks : String
deriving DecidableEq, Repr

/-- The className `updateStatus` assigns to the status line
(script.js line 15): red for errors, gray otherwise. -/
def statusClassName (isError : Bool) : String :=
  "mt-6 text-center text-sm font-medium " ++
    (if isError then "text-red-600" else "text-gray-700")

/-- `updateStatus(message, isError)` (script.js lines 13-16). -/
def updateStatus (message : String) (isError : Bool) (p : Page) : Page :=
  { p with statusText := message, statusClass := statusClassName isError }

/-- A page state before any handler has run. The concrete initial flags
come from the markup and do not matter to the claims; this record is used
only as a concrete sample input. -/
def initPage : Page :=
  { loginFormHidden := false
    twoFaHidden := true
    botActionsHidden := true
    statusText := ""
    statusClass := ""
    userList := ""
    recipientPks := "" }

/-- Does the character list start with the pattern? (Helper for the
embedding of JavaScript `String.prototype.includes`.) -/
def charsStartWith : List Char → List Char → Bool
  | [], _ => true
  | _ :: _, [] => false
  | c :: cs, d :: ds => c == d && charsStartWith cs ds

/-- Does the pattern occur as a contiguous run of the character list? -/
def charsContain (pat : List Char) : List Char → Bool
  | [] => charsStartWith pat []
  | c :: cs => charsStartWith pat (c :: cs) || charsContain pat cs

/-- JavaScript `s.includes(pat)`: substring containment. -/
def strIncludes (s pat : String) : Bool :=
  charsContain pat.data s.data

/-- The keyword classification inside `appendLog` (script.js lines 22-28):
a pure function of the log text, used only for the className of the
appended paragraph. Unmatched text keeps the default (empty) class. -/
def logClassOf (logEntry : String) : String :=
  if strIncludes logEntry "ERROR" || strIncludes logEntry "Failed" then
    "log-error"
  else if strIncludes logEntry "WARNING" || strIncludes logEntry "Rate limit" then
    "log-warning"
  else if strIncludes logEntry "INFO" || strIncludes logEntry "Successfully" then
    "log-info"
  else
    ""

/-- One paragraph appended to `log-output`: its className and its
textContent. -/
structure LogLine where
  className : String
  text : String
deriving DecidableEq, Repr

/-- `appendLog(logEntry)` (script.js lines 19-33): appends one paragraph,
classified by `logClassOf`, at the end of the log output. -/
def appendLog (logEntry : String) (logs : List LogLine) : List LogLine :=
  logs ++ [⟨logClassOf logEntry, logEntry⟩]

/-- The parsed payload of one EventSource message, after `JSON.parse`:
either a falsy value (e.g. JSON `null`), or an object whose `log` field
is absent (`none`) or a string. -/
inductive EventData where
  | falsy
  | obj (log : Option String)
deriving DecidableEq, Repr

/-- The truthiness test `data && data.log` of script.js line 39: yields
the log text exactly when the payload is a truthy object whose `log`
field is a nonempty string. -/
def logTruthy : EventData → Option String
  | .falsy => none
  | .obj none => none
  | .obj (some s) => if s == "" then none else some s

/-- The state of the log channel consumer: the rendered log lines and
whether `eventSource.close()` has been called. -/
structure ChannelState where
  logs : List LogLine
  closed : Bool
deriving DecidableEq, Repr

/-- One event delivered on the log channel: a message with a parsed
payload, or a channel error. -/
inductive ChEvent where
  | msg (d : EventData)
  | err
deriving DecidableEq, Repr

/-- `eventSource.onmessage` (script.js lines 37-42): append the log text
when `data && data.log` is truthy, otherwise do nothing. -/
def onmessage (d : EventData) (s : ChannelState) : ChannelState :=
  match logTruthy d with
  | some logText => { s with logs := appendLog logText s.logs }
  | none => s

/-- `eventSource.onerror` (script.js lines 43-47): append one explicit
error line and close the channel. -/
def onerror (s : ChannelState) : ChannelState :=
  { logs := appendLog "ERROR: Log streaming failed. Refresh the page or check server logs." s.logs
    closed := true }

/-- Deliver one channel event. A closed EventSource dispatches no further
events, so a closed state absorbs everything. -/
def chStep (s : ChannelState) (e : ChEvent) : ChannelState :=
  if s.closed then s
  else
    match e with
    | .msg d => onmessage d s
    | .err => onerror s

/-- Deliver a sequence of channel events in arrival order. -/
def chRun (s : ChannelState) (es : List ChEvent) : ChannelState :=
  es.foldl chStep s

/-- The parsed body of the `GET /status` response. -/
structure StatusData where
  logged_in : Bool
deriving DecidableEq, Repr

/-- The status probe (script.js lines 51-67). It is the one fetch in the
script with a `.catch`: a rejected promise is converted into the
"Could not connect" error status, so the probe itself never throws. -/
def statusProbe (resp : Except JsError StatusData) (p : Page) : Page :=
  match resp with
  | Except.ok d =>
      if d.logged_in then
        updateStatus "Logged in." false
          { p with loginFormHidden := true, botActionsHidden := false }
      else
        updateStatus "Please log in to Instagram." false
          { p with loginFormHidden := false, botActionsHidden := true }
  | Except.error _ =>
      updateStatus "Could not connect to backend. Ensure the server is running." true p

/-- The parsed body of a login or 2FA response: `status` and `message`
fields, each possibly absent. -/
structure AuthResult where
  status : Option String
  message : Option String
deriving DecidableEq, Repr

/-- JavaScript string coercion of a possibly-undefined value, as it is
rendered by `updateStatus(result.message, ...)` or a template literal:
an absent field displays as "undefined". -/
def jShow : Option String → String
  | some s => s
  | none => "undefined"

/-- JavaScript `o || fallback` on a possibly-absent string: absent and
empty strings are falsy. Embeds `result.detail || 'Unknown error'`. -/
def orDefault (o : Option String) (fallback : String) : String :=
  match o with
  | some s => if s == "" then fallback else s
  | none => fallback

/-- The branch of the login handler after `await response.json()`
(script.js lines 82-95). -/
def loginLogic (result : AuthResult) (p : Page) : Page :=
  if result.status == some "success" then
    { updateStatus (jShow result.message) false p with
        loginFormHidden := true, twoFaHidden := true, botActionsHidden := false }
  else if result.status == some "2fa_required" then
    { updateStatus (jShow result.message) true p with
        loginFormHidden := true, twoFaHidden := false }
  else
    { updateStatus (jShow result.message) true p with
        loginFormHidden := false, twoFaHidden := true }

/-- The login form submit handler (script.js lines 71-96). It sets the
"Logging in..." status, then awaits the fetch and the body parse with no
try/catch: a rejected promise propagates out of the handler. -/
def loginHandler (resp : Except JsError AuthResult) (p : Page) : Except JsError Page :=
  match resp with
  | Except.error e => Except.error e
  | Except.ok result => Except.ok (loginLogic result (updateStatus "Logging in..." false p))

/-- The branch of the 2FA handler after `await response.json()`
(script.js lines 110-117). -/
def twoFaLogic (result : AuthResult) (p : Page) : Page :=
  if result.status == some "success" then
    { updateStatus (jShow result.message) false p with
        twoFaHidden := true, botActionsHidden := false }
  else
    { updateStatus (jShow result.message) true p with twoFaHidden := false }

/-- The 2FA form submit handler (script.js lines 99-118), again with no
try/catch around the awaited fetch. -/
def twoFaHandler (resp : Except JsError AuthResult) (p : Page) : Except JsError Page :=
  match resp with
  | Except.error e => Except.error e
  | Except.ok result => Except.ok (twoFaLogic result (updateStatus "Submitting 2FA code..." false p))

/-- One backend-reported contact (`user` in script.js): pk, username and
full name. -/
structure Contact where
  pk : Nat
  username : String
  full_name : String
deriving DecidableEq, Repr

/-- The parsed body of a `/get-list` response. `users` is `none` when the
body carries no `users` array at all. -/
structure ListResult where
  status : Option String
  message : Option String
  users : Option (List Contact)
  detail : Option String
deriving DecidableEq, Repr

/-- One rendered contact paragraph (script.js line 139). -/
def renderUser (u : Contact) : String :=
  "<p>PK: " ++ toString u.pk ++ ", Username: " ++ u.username ++
    ", Full Name: " ++ u.full_name ++ "</p>"

/-- `result.users.map(...).join('')` (script.js lines 138-140). -/
def listHtml (users : List Contact) : String :=
  String.join (users.map renderUser)

/-- `result.users.map(user => user.pk).join(', ')` (script.js line 145). -/
def joinPks (users : List Contact) : String :=
  String.intercalate ", " (users.map fun u => toString u.pk)

/-- The empty-state markup (script.js line 148). -/
def emptyListHtml : String := "<p>No users found or list is empty.</p>"

/-- The warning-state markup (script.js line 152). -/
def warnHtml (m : String) : String :=
  "<p class=\"text-orange-600\">" ++ m ++ "</p>"

/-- The error-state markup (script.js line 157). -/
def errHtml (d : String) : String :=
  "<p class=\"text-red-600\">Error: " ++ d ++ "</p>"

/-- The branch of the list handler after `await response.json()`
(script.js lines 133-158). Line 136 reads `result.users.length` before
line 137 checks `result.users`, so a success body without a `users`
array raises a TypeError, embedded as `Except.error`. -/
def getListLogic (respOk : Bool) (result : ListResult) (p0 : Page) : Except JsError Page :=
  let p := { p0 with userList := "" }
  if respOk && result.status == some "success" then
    match result.users with
    | none =>
        Except.error (JsError.typeError "Cannot read properties of undefined (reading length)")
    | some us =>
        let p := updateStatus ("Successfully fetched " ++ toString us.length ++ " users.") false p
        if 0 < us.length then
          Except.ok { p with userList := listHtml us, recipientPks := joinPks us }
        else
          Except.ok { p with userList := emptyListHtml }
  else if respOk && result.status == some "warning" then
    Except.ok { updateStatus (jShow result.message) true p with
                  userList := warnHtml (jShow result.message) }
  else
    let errorDetail := orDefault result.detail "Unknown error"
    Except.ok { updateStatus ("Failed to fetch list: " ++ errorDetail) true p with
                  userList := errHtml errorDetail }

/-- The get-list form submit handler (script.js lines 121-159): sets the
in-progress status and placeholder, then awaits the fetch with no
try/catch; the fetch outcome carries `response.ok` and the parsed body. -/
def getListHandler (resp : Except JsError (Bool × ListResult)) (p : Page) : Except JsError Page :=
  match resp with
  | Except.error e => Except.error e
  | Except.ok (respOk, result) =>
      getListLogic respOk result
        { updateStatus "Fetching user list..." false p with userList := "<p>Fetching list...</p>" }

/-- The parsed body of a `/send-dm` response. -/
structure DmResult where
  status : Option String
  message : Option String
  detail : Option String
deriving DecidableEq, Repr

/-- Remove every entry with the given key (helper for `FormData.set`). -/
def removeKey (k : String) : List (String × String) → List (String × String)
  | [] => []
  | (k0, v0) :: rest =>
      if k0 == k then removeKey k rest else (k0, v0) :: removeKey k rest

/-- `FormData.set(k, v)`: replace the first entry for `k` (dropping any
later duplicates), or append the pair when `k` is absent. -/
def formDataSet (fd : List (String × String)) (k v : String) : List (String × String) :=
  match fd with
  | [] => [(k, v)]
  | (k0, v0) :: rest =>
      if k0 == k then (k, v) :: removeKey k rest
      else (k0, v0) :: formDataSet rest k v

/-- `FormData.get(k)`: the value of the first entry for `k`. -/
def formDataGet (fd : List (String × String)) (k : String) : Option String :=
  match fd with
  | [] => none
  | (k0, v0) :: rest => if k0 == k then some v0 else formDataGet rest k

/-- The request body built by the send-DM handler (script.js lines
166-168): the captured form entries, with `recipient_pks` overwritten by
the current value of the `recipient-pks` textarea. -/
def dmSubmissionBody (capturedForm : List (String × String)) (recipientFieldValue : String) :
    List (String × String) :=
  formDataSet capturedForm "recipient_pks" recipientFieldValue

/-- The branch of the send-DM handler after `await response.json()`
(script.js lines 176-182). -/
def sendDmLogic (respOk : Bool) (result : DmResult) (p : Page) : Page :=
  if respOk && result.status == some "processing" then
    updateStatus (jShow result.message) false p
  else
    updateStatus ("Failed to start DM process: " ++ orDefault result.detail "Unknown error") true p

/-- The send-DM form submit handler (script.js lines 162-183), with no
try/catch around the awaited fetch. -/
def sendDmHandler (resp : Except JsError (Bool × DmResult)) (p : Page) : Except JsError Page :=
  match resp with
  | Except.error e => Except.error e
  | Except.ok (respOk, result) =>
      Except.ok (sendDmLogic respOk result (updateStatus "Starting mass DM process..." false p))

/-! ### Helper lemmas -/

theorem chStep_of_closed (s : ChannelState) (e : ChEvent) (h : s.closed = true) :
    chStep s e = s := by
  simp [chStep, h]

theorem chRun_of_closed (s : ChannelState) (es : List ChEvent) (h : s.closed = true) :
    chRun s es = s := by
  induction es with
  | nil => rfl
  | cons e es ih =>
      show chRun (chStep s e) es = s
      rw [chStep_of_closed s e h]
      exact ih

theorem chRun_msgs (es : List EventData) :
    ∀ s : ChannelState, s.closed = false →
      chRun s (es.map ChEvent.msg) =
        ⟨s.logs ++ (es.filterMap logTruthy).map (fun t => (⟨logClassOf t, t⟩ : LogLine)), false⟩ := by
  induction es with
  | nil =>
      intro s h
      cases s with
      | mk logs closed =>
          simp only at h
          subst h
          simp [chRun]
  | cons d ds ih =>
      intro s h
      show chRun (chStep s (ChEvent.msg d)) (ds.map ChEvent.msg) = _
      rcases hd : logTruthy d with _ | t
      · have hstep : chStep s (ChEvent.msg d) = s := by
          simp [chStep, h, onmessage, hd]
        rw [hstep, ih s h]
        simp [hd]
      · have hstep : chStep s (ChEvent.msg d) =
            ⟨s.logs ++ [⟨logClassOf t, t⟩], false⟩ := by
          cases s with
          | mk logs closed =>
              simp only at h
              subst h
              simp [chStep, onmessage, hd, appendLog]
        rw [hstep, ih _ rfl]
        simp [hd]

theorem list_append_cons_ne (pre l1 l2 : List Char) (c1 c2 : Char) (h : c1 ≠ c2) :
    pre ++ c1 :: l1 ≠ pre ++ c2 :: l2 := by
  intro he
  have h2 := List.append_cancel_left he
  exact h (List.cons_eq_cons.mp h2).1

theorem warnHtml_data_o (m : String) :
    (warnHtml m).data =
      ("<p class=\"text-" : String).data ++ 'o' ::
        (("range-600\">" : String).data ++ (m.data ++ ("</p>" : String).data)) := by
  simp only [warnHtml, String.data_append]
  simp [List.append_assoc]

theorem warnHtml_data_space (m : String) :
    (warnHtml m).data =
      ("<p" : String).data ++ ' ' ::
        (("class=\"text-orange-600\">" : String).data ++ (m.data ++ ("</p>" : String).data)) := by
  simp only [warnHtml, String.data_append]
  simp [List.append_assoc]

theorem errHtml_data_r (d : String) :
    (errHtml d).data =
      ("<p class=\"text-" : String).data ++ 'r' ::
        (("ed-600\">Error: " : String).data ++ (d.data ++ ("</p>" : String).data)) := by
  simp only [errHtml, String.data_append]
  simp [List.append_assoc]

theorem errHtml_data_space (d : String) :
    (errHtml d).data =
      ("<p" : String).data ++ ' ' ::
        (("class=\"text-red-600\">Error: " : String).data ++ (d.data ++ ("</p>" : String).data)) := by
  simp only [errHtml, String.data_append]
  simp [List.append_assoc]

theorem emptyListHtml_data :
    emptyListHtml.data =
      ("<p" : String).data ++ '>' :: ("No users found or list is empty.</p>" : String).data := by
  decide

theorem warnHtml_ne_errHtml (m d : String) : warnHtml m ≠ errHtml d := by
  intro he
  have hd : (warnHtml m).data = (errHtml d).data := by rw [he]
  rw [warnHtml_data_o, errHtml_data_r] at hd
  exact list_append_cons_ne _ _ _ _ _ (by decide) hd

theorem warnHtml_ne_emptyListHtml (m : String) : warnHtml m ≠ emptyListHtml := by
  intro he
  have hd : (warnHtml m).data = emptyListHtml.data := by rw [he]
  rw [warnHtml_data_space, emptyListHtml_data] at hd
  exact list_append_cons_ne _ _ _ _ _ (by decide) hd

theorem emptyListHtml_ne_errHtml (d : String) : emptyListHtml ≠ errHtml d := by
  intro he
  have hd : emptyListHtml.data = (errHtml d).data := by rw [he]
  rw [emptyListHtml_data, errHtml_data_space] at hd
  exact list_append_cons_ne _ _ _ _ _ (by decide) hd

/-! ### Claims -/

/-- C1 counterexample: the claim says every network failure during any
request is caught and converted into a status or log message. It is false
at a concrete input: a network failure at the awaited fetch of a
credential submission propagates out of the login submit handler (which
has no try/catch), i.e. reaches the host environment as an unhandled
rejection. -/
theorem c1_counterexample :
    loginHandler (Except.error JsError.network) initPage = Except.error JsError.network := rfl

/-- C1 (amended): transport failures are caught and converted into a
status or log message only for the startup status probe (its `.catch`
sets the "Could not connect" error status) and for the log channel (its
onerror appends one error log line and closes the channel). A transport
failure during the credential, challenge-code, contact-list or
bulk-message submission propagates uncaught out of the corresponding
submit handler. -/
theorem c1_amended (e : JsError) (p : Page) (logs : List LogLine) :
    statusProbe (Except.error e) p =
        updateStatus "Could not connect to backend. Ensure the server is running." true p
      ∧ chStep ⟨logs, false⟩ ChEvent.err =
          ⟨appendLog "ERROR: Log streaming failed. Refresh the page or check server logs." logs,
            true⟩
      ∧ loginHandler (Except.error e) p = Except.error e
      ∧ twoFaHandler (Except.error e) p = Except.error e
      ∧ getListHandler (Except.error e) p = Except.error e
      ∧ sendDmHandler (Except.error e) p = Except.error e :=
  ⟨rfl, rfl, rfl, rfl, rfl, rfl⟩

/-- C2 counterexample: the claim says the rendered log sequence always
equals the arrival sequence with no event dropped. It is false at a
concrete input: of three arriving log events with texts "a", "" and "b",
the event whose `log` field is the empty string fails the truthiness
test `data && data.log` and is silently dropped, so the rendered
sequence is ["a", "b"], not ["a", "", "b"]. -/
theorem c2_counterexample :
    ((chRun ⟨[], false⟩
        [ChEvent.msg (EventData.obj (some "a")), ChEvent.msg (EventData.obj (some "")),
         ChEvent.msg (EventData.obj (some "b"))]).logs).map LogLine.text ≠ ["a", "", "b"] := by
  decide

/-- C2 (amended): for every sequence of message events received on the
open channel, the rendered log sequence equals the arrival-order
sequence of those payloads whose `log` field is a truthy (nonempty)
string: such events are never dropped, duplicated or reordered, while
events whose payload is falsy, lacks a `log` field, or carries an empty
`log` string are silently dropped. -/
theorem c2_amended (es : List EventData) :
    ((chRun ⟨[], false⟩ (es.map ChEvent.msg)).logs).map LogLine.text = es.filterMap logTruthy := by
  rw [chRun_msgs es ⟨[], false⟩ rfl]
  simp only [List.nil_append, List.map_map]
  have hid : (LogLine.text ∘ fun t => ({ className := logClassOf t, text := t } : LogLine)) = id :=
    rfl
  rw [hid, List.map_id]

/-- C6: the recipient set sent by a bulk-message submission is the value
of the recipient field read immediately before submission: `FormData.set`
overrides whatever `recipient_pks` entry the form originally captured, so
the backend receives exactly the (possibly operator-edited) field value. -/
theorem c6_recipient_override (capturedForm : List (String × String)) (edited : String) :
    formDataGet (dmSubmissionBody capturedForm edited) "recipient_pks" = some edited := by
  unfold dmSubmissionBody
  induction capturedForm with
  | nil => rfl
  | cons kv rest ih =>
      rcases kv with ⟨k0, v0⟩
      by_cases hk : k0 = "recipient_pks"
      · subst hk
        simp [formDataSet, formDataGet]
      · have hb : (k0 == "recipient_pks") = false := by
          simp [hk]
        simp [formDataSet, formDataGet, hb, ih]

/-- C10: in the contact-list handler, `result.users.length` is read (for
the count report) before the `result.users &&` existence check, so an ok
response with status "success" but no users array makes the handler throw
a TypeError instead of rendering any result. -/
theorem c10_users_length_throw :
    getListHandler (Except.ok (true,
        { status := some "success", message := none, users := none, detail := none })) initPage
      = Except.error (JsError.typeError "Cannot read properties of undefined (reading length)") :=
  rfl

/-- C3 counterexample: the claim says a warning outcome of the list fetch
is never reported through the error presentation path. It is false at a
concrete input: on an ok response with status "warning" the handler calls
`updateStatus(result.message, true)`, assigning the status line the very
className used for errors (the isError branch of line 15). -/
theorem c3_counterexample :
    ∃ q, getListHandler (Except.ok (true,
          { status := some "warning", message := some "Rate limit reached", users := none,
            detail := none })) initPage = Except.ok q
      ∧ q.statusClass = statusClassName true :=
  ⟨_, rfl, rfl⟩

/-- C3 (amended): on an ok list-fetch response with status "warning", the
backend-supplied message is rendered in the list output in a
distinguished orange style different from both the error rendering (for
every detail string) and the empty-state rendering, but the status line
reports the same message with the error presentation (the isError
className), not a non-error style. -/
theorem c3_amended (m : String) (p : Page) :
    ∃ q, getListHandler (Except.ok (true,
          { status := some "warning", message := some m, users := none, detail := none })) p
        = Except.ok q
      ∧ q.userList = warnHtml m
      ∧ (∀ d, q.userList ≠ errHtml d)
      ∧ q.userList ≠ emptyListHtml
      ∧ q.statusText = m
      ∧ q.statusClass = statusClassName true :=
  ⟨_, rfl, rfl, fun d => warnHtml_ne_errHtml m d, warnHtml_ne_emptyListHtml m, rfl, rfl⟩

/-- C4 counterexample: the claim says the message of a "2fa_required"
response is reported as a non-fatal notice, not as an error. It is false
at a concrete input: the handler calls `updateStatus(result.message,
true)`, assigning the status line the error className. -/
theorem c4_counterexample :
    ∃ q, loginHandler (Except.ok
          { status := some "2fa_required", message := some "2FA code required" }) initPage
        = Except.ok q
      ∧ q.statusClass = statusClassName true :=
  ⟨_, rfl, rfl⟩

/-- C4 (amended): every credential submission answered with status
"2fa_required" hides the credential form and reveals the challenge form
(the CHALLENGE_PENDING configuration), and reports the backend-provided
message on the status line — but with the error presentation (the
isError className), not as a non-error notice. -/
theorem c4_amended (message : Option String) (p : Page) :
    ∃ q, loginHandler (Except.ok { status := some "2fa_required", message := message }) p
        = Except.ok q
      ∧ q.loginFormHidden = true
      ∧ q.twoFaHidden = false
      ∧ q.statusText = jShow message
      ∧ q.statusClass = statusClassName true :=
  ⟨_, rfl, rfl, rfl, rfl, rfl⟩

/-- C5: on a log-channel failure in the open state, exactly one explicit
error line is appended (classified log-error), the channel is closed, and
every subsequent sequence of channel events leaves the state — hence the
rendered log — unchanged: no further line is ever appended and the
channel never reopens. -/
theorem c5_channel_failure (s : ChannelState) (h : s.closed = false) (es : List ChEvent) :
    (chStep s ChEvent.err).logs
        = s.logs ++
            [⟨"log-error", "ERROR: Log streaming failed. Refresh the page or check server logs."⟩]
      ∧ (chStep s ChEvent.err).closed = true
      ∧ chRun (chStep s ChEvent.err) es = chStep s ChEvent.err := by
  have h1 : chStep s ChEvent.err =
      ⟨appendLog "ERROR: Log streaming failed. Refresh the page or check server logs." s.logs,
        true⟩ := by
    unfold chStep
    rw [h]
    rfl
  have hc : logClassOf "ERROR: Log streaming failed. Refresh the page or check server logs."
      = "log-error" := rfl
  refine ⟨?_, ?_, ?_⟩
  · rw [h1]
    show appendLog _ s.logs = _
    unfold appendLog
    rw [hc]
  · rw [h1]
  · rw [h1]
    exact chRun_of_closed _ es rfl

/-- Witness for C5 at a concrete channel state and a concrete sequence of
later events. -/
theorem c5_channel_failure_witness :
    (⟨[], false⟩ : ChannelState).closed = false
      ∧ ((chStep ⟨[], false⟩ ChEvent.err).logs
            = [] ++
                [⟨"log-error",
                  "ERROR: Log streaming failed. Refresh the page or check server logs."⟩]
          ∧ (chStep ⟨[], false⟩ ChEvent.err).closed = true
          ∧ chRun (chStep ⟨[], false⟩ ChEvent.err)
                [ChEvent.msg (EventData.obj (some "late line")), ChEvent.err]
              = chStep ⟨[], false⟩ ChEvent.err) :=
  ⟨rfl, c5_channel_failure ⟨[], false⟩ rfl
    [ChEvent.msg (EventData.obj (some "late line")), ChEvent.err]⟩

/-- The success branch of the list handler for a nonempty users array:
report the count, render the contacts, and project the pks into the
recipient field. -/
theorem getListLogic_success (us : List Contact) (m dtl : Option String) (p0 : Page)
    (hpos : 0 < us.length) :
    getListLogic true { status := some "success", message := m, users := some us, detail := dtl }
        p0
      = Except.ok { updateStatus ("Successfully fetched " ++ toString us.length ++ " users.")
            false { p0 with userList := "" } with
          userList := listHtml us, recipientPks := joinPks us } := by
  unfold getListLogic
  simp [hpos]

/-- C7: for every successful contact-list fetch returning a nonempty
user sequence, the recipient field is set to the pk values in order
joined by ", " (stated spec-side as `String.intercalate ", "` over the
pk projection of the sequence); in particular, whenever the pk sequence
is [1, 2, 3] the field reads exactly "1, 2, 3". -/
theorem c7_recipient_join (users : List Contact) (p : Page) (h : users ≠ []) :
    ∃ q, getListHandler (Except.ok (true,
          { status := some "success", message := none, users := some users, detail := none })) p
        = Except.ok q
      ∧ q.recipientPks = String.intercalate ", " ((users.map Contact.pk).map toString)
      ∧ (users.map Contact.pk = [1, 2, 3] → q.recipientPks = "1, 2, 3") := by
  have hpos : 0 < users.length := List.length_pos.mpr h
  refine ⟨_, getListLogic_success users none none _ hpos, ?_, ?_⟩
  · show joinPks users = _
    unfold joinPks
    rw [List.map_map]
    rfl
  · intro h123
    show joinPks users = "1, 2, 3"
    unfold joinPks
    have h2 : (users.map Contact.pk).map toString = ([1, 2, 3] : List Nat).map toString := by
      rw [h123]
    rw [List.map_map] at h2
    have h3 : users.map (fun u => toString u.pk) = ["1", "2", "3"] :=
      h2.trans (by decide)
    rw [h3]
    decide

/-- Witness for C7 at a concrete nonempty three-user list and page
state. -/
theorem c7_recipient_join_witness :
    ([⟨1, "alice", "Alice A"⟩, ⟨2, "bob", "Bob B"⟩, ⟨3, "carol", "Carol C"⟩] : List Contact) ≠ []
      ∧ ∃ q, getListHandler (Except.ok (true,
            { status := some "success", message := none,
              users := some [⟨1, "alice", "Alice A"⟩, ⟨2, "bob", "Bob B"⟩, ⟨3, "carol", "Carol C"⟩],
              detail := none })) initPage = Except.ok q
          ∧ q.recipientPks = String.intercalate ", "
              ((([⟨1, "alice", "Alice A"⟩, ⟨2, "bob", "Bob B"⟩, ⟨3, "carol", "Carol C"⟩] :
                  List Contact).map Contact.pk).map toString)
          ∧ (([⟨1, "alice", "Alice A"⟩, ⟨2, "bob", "Bob B"⟩, ⟨3, "carol", "Carol C"⟩] :
                List Contact).map Contact.pk = [1, 2, 3] → q.recipientPks = "1, 2, 3") :=
  ⟨by decide, c7_recipient_join
    [⟨1, "alice", "Alice A"⟩, ⟨2, "bob", "Bob B"⟩, ⟨3, "carol", "Carol C"⟩] initPage (by decide)⟩

/-- C8: an ok list-fetch response with status "success" and an empty
users sequence renders the explicit empty-state message, a failing fetch
renders the error-state message, and the two renderings are distinct for
every detail string. -/
theorem c8_empty_state (p : Page) (m : Option String) :
    (∃ q, getListHandler (Except.ok (true,
          { status := some "success", message := m, users := some [], detail := none })) p
        = Except.ok q ∧ q.userList = emptyListHtml)
      ∧ (∃ q, getListHandler (Except.ok (false,
          { status := some "success", message := m, users := some [], detail := none })) p
        = Except.ok q ∧ q.userList = errHtml "Unknown error")
      ∧ ∀ d, emptyListHtml ≠ errHtml d :=
  ⟨⟨_, rfl, rfl⟩, ⟨_, rfl, rfl⟩, emptyListHtml_ne_errHtml⟩

/-- C9: a challenge-code submission answered with any status other than
"success" keeps the challenge form visible (and the other sections
unchanged), reporting the backend message as an error, so the operator
may retry the code without re-entering credentials. -/
theorem c9_challenge_retry (result : AuthResult) (p : Page)
    (h : result.status ≠ some "success") :
    ∃ q, twoFaHandler (Except.ok result) p = Except.ok q
      ∧ q.twoFaHidden = false
      ∧ q.loginFormHidden = p.loginFormHidden
      ∧ q.botActionsHidden = p.botActionsHidden
      ∧ q.statusText = jShow result.message
      ∧ q.statusClass = statusClassName true := by
  have hb : (result.status == some "success") = false := beq_eq_false_iff_ne.mpr h
  have hq : twoFaHandler (Except.ok result) p
      = Except.ok { updateStatus (jShow result.message) true
            (updateStatus "Submitting 2FA code..." false p) with twoFaHidden := false } := by
    show Except.ok (twoFaLogic result (updateStatus "Submitting 2FA code..." false p)) = _
    unfold twoFaLogic
    rw [hb]
    rfl
  exact ⟨_, hq, rfl, rfl, rfl, rfl, rfl⟩

/-- Witness for C9 at a concrete failing challenge response and page
state. -/
theorem c9_challenge_retry_witness :
    ((⟨some "error", some "Wrong code"⟩ : AuthResult).status ≠ some "success")
      ∧ ∃ q, twoFaHandler (Except.ok ⟨some "error", some "Wrong code"⟩) initPage = Except.ok q
          ∧ q.twoFaHidden = false
          ∧ q.loginFormHidden = initPage.loginFormHidden
          ∧ q.botActionsHidden = initPage.botActionsHidden
          ∧ q.statusText = jShow (⟨some "error", some "Wrong code"⟩ : AuthResult).message
          ∧ q.statusClass = statusClassName true :=
  ⟨by decide, c9_challenge_retry ⟨some "error", some "Wrong code"⟩ initPage (by decide)⟩
